import Mathlib

/-!
Verification of the EpiStratify backend business-rule engines.

Shallow embedding of the Python services in `backend/app/services/`:
workflow state machine (`workflow_service.py`), stratification engine
(`stratification_service.py`), forecast engine (`forecast_service.py`),
quality-check recommendations (`quality_check_service.py`) and the costing
optimizer (`costing_service.py`).

Modelling conventions:
  - Python floats are modelled exactly over `ℚ` (the arithmetic in these
    services is short and claims concern exact thresholds, not rounding).
  - Python `round(x, n)` and format specifiers `:.0%`, `:.0f`, `:.1f` use
    round-half-to-even, modelled by `roundHalfEven`.
  - Python dict truthiness (`if d.get(k):`) is modelled with `Option`
    plus an explicit truthiness test, or with a `Bool` field when only
    truthiness of the stored value is ever consulted.
  - Raising `ValueError` is modelled with `Except String`.
-/

/-- Round-half-to-even on rationals, as used by Python `round` and the
`:.0%` / `:.0f` / `:.1f` format specifiers. -/
def roundHalfEven (q : ℚ) : ℤ :=
  let f := Int.floor q
  let r := q - f
  if r < 1/2 then f
  else if 1/2 < r then f + 1
  else if f % 2 = 0 then f else f + 1

/-- Python `f"{q:.0%}"`. -/
def formatPct (q : ℚ) : String := toString (roundHalfEven (q * 100)) ++ "%"

/-- Python `f"{q:.0f}"`. -/
def formatF0 (q : ℚ) : String := toString (roundHalfEven q)

/-- Python `f"{q:.1f}"` (for the non-negative values used here). -/
def formatF1 (q : ℚ) : String :=
  let t := roundHalfEven (q * 10)
  toString (t / 10) ++ "." ++ toString (t % 10)

/-! ## Workflow state machine (`workflow_service.py`, `core/enums.py`) -/

/-- The ten workflow steps (`WorkflowStep` in `core/enums.py`). -/
inductive WorkflowStep
  | planning_preparedness
  | data_assembly
  | situation_analysis
  | stratification
  | intervention_tailoring
  | impact_forecasting
  | scenario_selection
  | resource_optimization
  | service_delivery
  | monitoring_evaluation
deriving DecidableEq, Repr

/-- Ordered list of steps (`WORKFLOW_STEP_ORDER`). -/
def WORKFLOW_STEP_ORDER : List WorkflowStep :=
  [WorkflowStep.planning_preparedness, WorkflowStep.data_assembly,
   WorkflowStep.situation_analysis, WorkflowStep.stratification,
   WorkflowStep.intervention_tailoring, WorkflowStep.impact_forecasting,
   WorkflowStep.scenario_selection, WorkflowStep.resource_optimization,
   WorkflowStep.service_delivery, WorkflowStep.monitoring_evaluation]

/-- Step statuses (`StepStatus`). -/
inductive StepStatus
  | not_started
  | in_progress
  | completed
  | blocked
deriving DecidableEq, Repr

/-- Prerequisite kinds (`PrerequisiteType`). -/
inductive PrerequisiteType
  | blocking
  | non_blocking
deriving DecidableEq, Repr

/-- The static prerequisite graph (`PREREQUISITES` in `workflow_service.py`). -/
def PREREQUISITES : WorkflowStep → List (WorkflowStep × PrerequisiteType)
  | .planning_preparedness => []
  | .data_assembly => [(.planning_preparedness, .blocking)]
  | .situation_analysis => [(.data_assembly, .blocking)]
  | .stratification => [(.situation_analysis, .blocking)]
  | .intervention_tailoring => [(.stratification, .blocking)]
  | .impact_forecasting => [(.intervention_tailoring, .blocking)]
  | .scenario_selection => [(.impact_forecasting, .blocking)]
  | .resource_optimization => [(.scenario_selection, .blocking)]
  | .service_delivery => [(.resource_optimization, .blocking)]
  | .monitoring_evaluation => [(.service_delivery, .non_blocking)]

/-- Whether step `s` appears in the prerequisite list of step `d` tagged
BLOCKING (the test of the cascade loop in `reopen_step`). -/
def isBlockingDep (s d : WorkflowStep) : Bool :=
  decide ((s, PrerequisiteType.blocking) ∈ PREREQUISITES d)

/-- Truthiness of the step-payload keys that the validators consult
(`state.data.get("scope_of_work")` and friends). A field is `true` iff the
key is present with a Python-truthy value. -/
structure StepData where
  scope_of_work : Bool
  operational_unit : Bool
  timeline : Bool
  analysis_completed : Bool
deriving DecidableEq, Repr

/-- One `WorkflowState` row (per project and step). Timestamps and user ids
are opaque `Nat` tokens. -/
structure StepState where
  status : StepStatus
  completion_percentage : ℚ
  notes : Option String
  completed_at : Option Nat
  completed_by : Option Nat
  data : StepData
  validation_errors : Option (List String × List String)
deriving DecidableEq, Repr

/-- A project's workflow: one `StepState` per step (all ten rows exist,
as guaranteed by `initialize_workflow`). -/
def Workflow := WorkflowStep → StepState

/-- One `DataSource` row, with the fields `_validate_data_assembly` reads. -/
structure DataSource where
  name : String
  source_type : String
  quality_score : Option ℚ
deriving DecidableEq, Repr

/-- One `StratificationConfig` row together with the number of
`StratificationResult` rows attached to it (the validator only counts). -/
structure StratConfig where
  name : String
  is_active : Bool
  num_results : Nat
deriving DecidableEq, Repr

/-- The project-level data the step validators query from the database. -/
structure Project where
  data_sources : List DataSource
  strat_configs : List StratConfig
deriving DecidableEq, Repr

/-- Point update of a workflow map. -/
def updFn (w : Workflow) (d : WorkflowStep) (v : StepState) : Workflow :=
  fun x => if x = d then v else w x

/-- `WorkflowService._validate_planning`. -/
def validate_planning (st : StepState) : List String × List String :=
  let errors :=
    (if st.data.scope_of_work then [] else ["Scope of work not documented"]) ++
    (if st.data.operational_unit then []
     else ["Operational unit (district/region) not defined"])
  let warnings := if st.data.timeline then [] else ["Timeline not yet created"]
  (errors, warnings)

/-- `WorkflowService._validate_data_assembly`. The Python set difference
`{"epidemiological", "demographic"} - source_types` is modelled by filtering
the required types in that fixed order (set iteration order is otherwise
unspecified; only membership matters to any behaviour). -/
def validate_data_assembly (p : Project) : List String × List String :=
  if p.data_sources.isEmpty then (["No data sources uploaded"], [])
  else
    let source_types := (p.data_sources.map (fun ds => ds.source_type)).dedup
    let missing :=
      ["epidemiological", "demographic"].filter
        (fun t => !(source_types.contains t))
    let errors :=
      if missing.isEmpty then []
      else ["Missing required data types: " ++ String.intercalate ", " missing]
    let warnings := p.data_sources.filterMap (fun ds =>
      match ds.quality_score with
      | some q =>
          if q < 1/2 then
            some ("Low quality score for \x27" ++ ds.name ++ "\x27: " ++
                  formatPct q)
          else none
      | none => none)
    (errors, warnings)

/-- `WorkflowService._validate_situation_analysis`. -/
def validate_situation_analysis (st : StepState) : List String × List String :=
  (if st.data.analysis_completed then []
   else ["Situation analysis not marked as completed"], [])

/-- `WorkflowService._validate_stratification`. -/
def validate_stratification (p : Project) : List String × List String :=
  let configs := p.strat_configs.filter (fun c => c.is_active)
  if configs.isEmpty then (["No active stratification configuration"], [])
  else
    (configs.filterMap (fun c =>
      if c.num_results = 0 then
        some ("No stratification results for config \x27" ++ c.name ++ "\x27")
      else none), [])

/-- `WorkflowService._validate_generic`. -/
def validate_generic (st : StepState) : List String × List String :=
  ([], if st.completion_percentage < 100 then
        ["Step is " ++ formatF0 st.completion_percentage ++ "% complete"]
      else [])

/-- `WorkflowService.validate_step`: the validator-dispatch table, returning
(errors, warnings). -/
def validate_step (p : Project) (w : Workflow) (s : WorkflowStep) :
    List String × List String :=
  match s with
  | .planning_preparedness => validate_planning (w s)
  | .data_assembly => validate_data_assembly p
  | .situation_analysis => validate_situation_analysis (w s)
  | .stratification => validate_stratification p
  | _ => validate_generic (w s)

/-- `WorkflowService.complete_step(project, step, user)`: re-runs
`validate_step` (which snapshots `{errors, warnings}` on the state); raises
when there is any error, with the message aggregating all error strings;
otherwise marks the step completed at time `t` by user `u`. -/
def complete_step (p : Project) (w : Workflow) (s : WorkflowStep)
    (u t : Nat) : Except String Workflow :=
  let ew := validate_step p w s
  let w1 := updFn w s { w s with validation_errors := some ew }
  if ew.1 = [] then
    Except.ok (updFn w1 s
      { w1 s with
        status := StepStatus.completed
        completion_percentage := 100
        completed_at := some t
        completed_by := some u })
  else
    Except.error ("Step cannot be completed: " ++ String.intercalate ", " ew.1)

/-- Reset a state to in_progress and clear completion metadata, as both the
target branch and the cascade branch of `reopen_step` do. -/
def clearToInProgress (st : StepState) : StepState :=
  { st with
    status := StepStatus.in_progress
    completed_at := none
    completed_by := none }

/-- One iteration of the cascade loop of `WorkflowService.reopen_step`:
reset downstream step `d` when the reopened step `s` is one of its BLOCKING
prerequisites and `d` is currently completed. -/
def cascadeStep (s : WorkflowStep) (acc : Workflow) (d : WorkflowStep) :
    Workflow :=
  if isBlockingDep s d then
    if (acc d).status = StepStatus.completed then
      updFn acc d (clearToInProgress (acc d))
    else acc
  else acc

/-- `WorkflowService.reopen_step(project, step)`: set the target back to
in_progress (clearing completion metadata), then scan every step in order
and reset completed direct BLOCKING dependents. -/
def reopen_step (w : Workflow) (s : WorkflowStep) : Workflow :=
  let w1 := updFn w s (clearToInProgress (w s))
  WORKFLOW_STEP_ORDER.foldl (cascadeStep s) w1

/-! ## Stratification engine (`stratification_service.py`) -/

/-- One threshold band `{"min_value": …, "max_value": …}`. -/
structure Band where
  min_value : ℚ
  max_value : ℚ
deriving DecidableEq, Repr

/-- Risk levels (`RiskLevel` in `core/enums.py`). -/
inductive RiskLevel
  | very_low
  | low
  | moderate
  | high
deriving DecidableEq, Repr

/-- Numeric severity index of a risk level, for stating monotonicity. -/
def RiskLevel.toNat : RiskLevel → Nat
  | .very_low => 0
  | .low => 1
  | .moderate => 2
  | .high => 3

/-- Stratification metrics (`StratificationMetric` in `core/enums.py`). -/
inductive StratificationMetric
  | pfpr
  | incidence
  | eir
deriving DecidableEq, Repr

/-- The test `level_name in thresholds and t["min_value"] <= v < t["max_value"]`
from `_assign_risk_level` (a missing key never matches). -/
def bandContains (v : ℚ) (b : Option Band) : Bool :=
  match b with
  | none => false
  | some b => decide (b.min_value ≤ v) && decide (v < b.max_value)

/-- `StratificationService._assign_risk_level(metric_value, thresholds)`:
iterate bands in the fixed order very_low, low, moderate, high; return the
first whose `[min, max)` contains the value; default to high. -/
def assign_risk_level (v : ℚ) (t : RiskLevel → Option Band) : RiskLevel :=
  if bandContains v (t RiskLevel.very_low) then RiskLevel.very_low
  else if bandContains v (t RiskLevel.low) then RiskLevel.low
  else if bandContains v (t RiskLevel.moderate) then RiskLevel.moderate
  else if bandContains v (t RiskLevel.high) then RiskLevel.high
  else RiskLevel.high

/-- `StratificationService._determine_eligible_interventions(risk_level,
metric, unit_data)`: the static WHO eligibility rule table. The `metric` and
`unit_data` parameters are accepted but never read, exactly as in the source;
`unit_data` is modelled as an arbitrary key-value list. -/
def determine_eligible_interventions (risk_level : RiskLevel)
    (_metric : StratificationMetric) (_unit_data : List (String × ℚ)) :
    List String :=
  let eligible := ["CM"]
  let eligible :=
    if risk_level = RiskLevel.low ∨ risk_level = RiskLevel.moderate ∨
        risk_level = RiskLevel.high
    then eligible ++ ["ITN"] else eligible
  let eligible :=
    if risk_level = RiskLevel.moderate ∨ risk_level = RiskLevel.high
    then eligible ++ ["IRS"] else eligible
  let eligible :=
    if risk_level ≠ RiskLevel.very_low then eligible ++ ["IPTp"] else eligible
  let eligible :=
    if risk_level = RiskLevel.moderate ∨ risk_level = RiskLevel.high
    then eligible ++ ["SMC", "VACCINE"] else eligible
  eligible

/-! ## Forecast engine (`forecast_service.py`) -/

/-- `INTERVENTION_EFFECTIVENESS`: per-code (cases_reduction,
deaths_reduction), as exact rationals. -/
def INTERVENTION_EFFECTIVENESS : String → Option (ℚ × ℚ) := fun code =>
  if code = "itn" then some (1/2, 11/20)
  else if code = "irs" then some (9/20, 1/2)
  else if code = "smc" then some (3/4, 3/4)
  else if code = "iptp" then some (1/10, 3/20)
  else if code = "vaccine" then some (2/5, 9/20)
  else if code = "cm" then some (1/5, 3/5)
  else if code = "pmc" then some (3/10, 7/20)
  else if code = "lsm" then some (1/10, 2/25)
  else none

/-- `INTERVENTION_EFFECTIVENESS.get(code, {}).get("cases_reduction", 0)`. -/
def cases_reduction (code : String) : ℚ :=
  ((INTERVENTION_EFFECTIVENESS code).map Prod.fst).getD 0

/-- `INTERVENTION_EFFECTIVENESS.get(code, {}).get("deaths_reduction", 0)`. -/
def deaths_reduction (code : String) : ℚ :=
  ((INTERVENTION_EFFECTIVENESS code).map Prod.snd).getD 0

/-- The diminishing-returns step of `_simple_forecast`:
`combined = combined + (1 - combined) * effect`. -/
def composeEff (c e : ℚ) : ℚ := c + (1 - c) * e

/-- Combined case reduction of `_simple_forecast` over a list of
intervention codes (the source iterates `sorted(all_interventions)`; the
list parameter stands for that iteration order), capped at 0.95. -/
def combined_case_reduction (codes : List String) : ℚ :=
  min ((codes.map cases_reduction).foldl composeEff 0) (19/20)

/-- Combined death reduction of `_simple_forecast`, capped at 0.95. -/
def combined_death_reduction (codes : List String) : ℚ :=
  min ((codes.map deaths_reduction).foldl composeEff 0) (19/20)

/-- The averted-count fields of the `forecast_data` dict that the
cost-effectiveness block of `run_forecast` reads (`none` models a missing
key, as produced for non-simple model types). -/
structure ForecastData where
  cases_averted : Option ℤ
  deaths_averted : Option ℤ
  dalys_averted : Option ℚ
deriving DecidableEq, Repr

/-- Python truthiness of an optional number (`None` and `0` are falsy). -/
def truthyQ : Option ℚ → Bool
  | none => false
  | some q => decide (q ≠ 0)

/-- Python truthiness of an optional integer. -/
def truthyZ : Option ℤ → Bool
  | none => false
  | some z => decide (z ≠ 0)

/-- The cost-effectiveness block of `ForecastService.run_forecast` (lines
88–117): computes (cost_per_case_averted, cost_per_death_averted,
cost_per_daly_averted). The whole block is guarded by
`if scenario.total_cost and forecast_data.get("cases_averted"):`. -/
def cost_effectiveness_ratios (total_cost : Option ℚ) (fd : ForecastData) :
    Option ℚ × Option ℚ × Option ℚ :=
  if truthyQ total_cost && truthyZ fd.cases_averted then
    let tc := total_cost.getD 0
    let ca : ℤ := fd.cases_averted.getD 0
    let da : ℤ := fd.deaths_averted.getD 0
    let dy : ℚ := fd.dalys_averted.getD 0
    ((if 0 < ca then some (tc / ca) else none),
     (if 0 < da then some (tc / da) else none),
     (if 0 < dy then some (tc / dy) else none))
  else (none, none, none)

/-! ## Quality check engine (`quality_check_service.py`) -/

/-- A `DataQualityCheck` record as consulted by the recommendation loop of
`run_all_checks` (check_type, score, issues_found). -/
structure CheckRecord where
  check_type : String
  score : Option ℚ
  issues_found : Nat
deriving DecidableEq, Repr

/-- The recommendation string `f"Improve {type}: score is {score:.0%}"`. -/
def recMessage (check_type : String) (score : ℚ) : String :=
  "Improve " ++ check_type ++ ": score is " ++ formatPct score

/-- The recommendation loop of `QualityCheckService.run_all_checks` (lines
86–91): one recommendation per check whose score is non-null and below 0.7. -/
def report_recommendations (checks : List CheckRecord) : List String :=
  checks.foldr (fun r acc =>
    match r.score with
    | some sc => if sc < 7/10 then recMessage r.check_type sc :: acc else acc
    | none => acc) []

/-- `QualityCheckService._check_duplicates` (score, issues_found, message);
the structured `details` dict is not consulted by any claim and is omitted.
`df.duplicated().sum()` counts rows minus distinct rows. -/
def check_duplicates (rows : List (List String)) : ℚ × Nat × String :=
  let dup_count : ℕ := rows.length - rows.dedup.length
  let total_rows := rows.length
  let dup_pct : ℚ :=
    if 0 < total_rows then (dup_count : ℚ) / (total_rows : ℚ) * 100 else 0
  let score := max 0 (1 - dup_pct / 50)
  let score3 : ℚ := (roundHalfEven (score * 1000) : ℚ) / 1000
  (score3, if 0 < dup_count then 1 else 0,
   toString dup_count ++ " duplicate rows found (" ++ formatF1 dup_pct ++ "%)")

/-! ## Costing engine (`costing_service.py`) -/

/-- `CostingService._estimate_effect`: population × fixed per-intervention
effect rate, default rate 0.01. -/
def effect_rate : String → ℚ := fun i =>
  if i = "itn" then 1/20
  else if i = "irs" then 1/25
  else if i = "smc" then 3/50
  else if i = "cm" then 3/100
  else if i = "iptp" then 1/100
  else if i = "vaccine" then 1/50
  else if i = "pmc" then 3/200
  else if i = "lsm" then 1/200
  else 1/100

/-- `CostingService._estimate_effect(intervention, population)`. -/
def estimate_effect (intervention : String) (population : ℤ) : ℚ :=
  (population : ℚ) * effect_rate intervention

/-- `CostingService._calculate_intervention_cost(intervention, population,
DEFAULT_UNIT_COSTS, years)`; the unit-cost parameters are the values of
`DEFAULT_UNIT_COSTS` (which coincide with every `.get` default in the
source). Unknown codes cost 0. -/
def calculate_intervention_cost (intervention : String) (population : ℤ)
    (years : ℚ) : ℚ :=
  let pop : ℚ := (population : ℚ)
  if intervention = "itn" then
    let nets := pop * (1/2)
    let cycles := years / 3
    nets * (5/2) * cycles + nets * (3/2) * cycles + pop * (1/10) * years
  else if intervention = "irs" then
    let structures := pop / 5
    structures * 5 * years + structures * (7/2) * years + pop * (1/5) * years
  else if intervention = "smc" then
    let target := pop * (9/50)
    target * (1/2) * 4 * years + target * (4/5) * 4 * years
  else if intervention = "iptp" then
    let target := pop * (1/25)
    target * (3/10) * 4 * years + target * (1/2) * 4 * years
  else if intervention = "vaccine" then
    let target := pop * (3/100)
    target * 2 * 4 * years + target * (3/2) * 4 * years
  else if intervention = "cm" then
    let tests := pop * (3/20)
    let treatments := tests * (3/10)
    tests * (1/2) * years + treatments * (6/5) * years
  else if intervention = "pmc" then
    let target := pop * (3/100)
    target * (2/5) * 3 * years + target * (1/2) * 3 * years
  else if intervention = "lsm" then
    let hectares := (pop / 1000) * (1/2)
    hectares * 150 * years
  else 0

/-- One entry of the `ce_data` candidate list of `optimize_scenario`. -/
structure CEItem where
  unit_key : String
  intervention : String
  cost : ℚ
  effect : ℚ
  icer : WithTop ℚ
deriving DecidableEq

/-- Lookup in the `pop_map` dict comprehension: last binding for a key wins,
missing key (or missing "population") gives 0. The key of each population
row is `item.get("admin_unit_code", item["admin_unit_name"])`, resolved
before this abstraction. -/
def popLookup (pop_map : List (String × ℤ)) (k : String) : ℤ :=
  (((pop_map.reverse.find? (fun p => p.1 == k)).map Prod.snd).getD 0)

/-- The candidate-building loop of `optimize_scenario`: one entry per
(unit, intervention) pair of the scenario assignment, with cost over 5
years, the simplified effect estimate, and ICER = cost/effect (`+∞` when
effect ≤ 0). -/
def build_ce_data (interventions : List (String × List String))
    (pop_map : List (String × ℤ)) : List CEItem :=
  interventions.flatMap (fun p =>
    let population := popLookup pop_map p.1
    p.2.map (fun i =>
      let cost := calculate_intervention_cost i population 5
      let effect := estimate_effect i population
      { unit_key := p.1
        intervention := i
        cost := cost
        effect := effect
        icer := if 0 < effect then ((cost / effect : ℚ) : WithTop ℚ) else ⊤ }))

/-- Insertion into the `optimized` dict of `optimize_scenario`
(`optimized.setdefault(unit, []).append(intervention)` in effect). -/
def addTo (m : List (String × List String)) (k : String) (v : String) :
    List (String × List String) :=
  if m.any (fun p => p.1 == k) then
    m.map (fun p => if p.1 == k then (p.1, p.2 ++ [v]) else p)
  else m ++ [(k, [v])]

/-- The greedy selection loop of `optimize_scenario`: accept candidates in
order while the running cost stays within the budget; returns the new
intervention assignment and the new stored total cost. -/
def greedy_select (ce : List CEItem) (budget : ℚ) :
    List (String × List String) × ℚ :=
  ce.foldl (fun acc item =>
    if acc.2 + item.cost ≤ budget then
      (addTo acc.1 item.unit_key item.intervention, acc.2 + item.cost)
    else acc) ([], 0)

/-- `CostingService.optimize_scenario(scenario, budget, population_data)`:
build candidates, sort ascending by ICER (stable; `+∞` sorts last), greedily
select within the budget, and overwrite the scenario's interventions and
total cost with the selection. -/
def optimize_scenario (interventions : List (String × List String))
    (pop_map : List (String × ℤ)) (budget : ℚ) :
    List (String × List String) × ℚ :=
  let ce := (build_ce_data interventions pop_map).mergeSort
    (fun a b => decide (a.icer ≤ b.icer))
  greedy_select ce budget

/-! ## Concrete fixtures used by witness theorems -/

/-- A fresh step state as created by `initialize_workflow`. -/
def baseStepState : StepState :=
  { status := StepStatus.not_started
    completion_percentage := 0
    notes := none
    completed_at := none
    completed_by := none
    data := { scope_of_work := false, operational_unit := false,
              timeline := false, analysis_completed := false }
    validation_errors := none }

/-- A freshly initialized workflow: every step not started. -/
def wfAllNotStarted : Workflow := fun _ => baseStepState

/-- A workflow in which exactly the data-assembly step is completed. -/
def wfDataAssemblyDone : Workflow := fun s =>
  if s = WorkflowStep.data_assembly then
    { baseStepState with
      status := StepStatus.completed
      completed_at := some 7
      completed_by := some 3 }
  else baseStepState

/-- A workflow in which every step is in progress. -/
def wfAllInProgress : Workflow := fun _ =>
  { baseStepState with status := StepStatus.in_progress }

/-- A project with no data sources and no stratification configs. -/
def emptyProject : Project := { data_sources := [], strat_configs := [] }

/-- Concrete contiguous threshold bands 0/25/50/75/100. -/
def sampleThresholds : RiskLevel → Option Band := fun l =>
  match l with
  | RiskLevel.very_low => some { min_value := 0, max_value := 25 }
  | RiskLevel.low => some { min_value := 25, max_value := 50 }
  | RiskLevel.moderate => some { min_value := 50, max_value := 75 }
  | RiskLevel.high => some { min_value := 75, max_value := 100 }

/-- A concrete scenario assignment for the optimizer witness. -/
def sampleAssignment : List (String × List String) :=
  [("district-1", ["itn", "cm"]), ("district-2", ["irs"])]

/-- Concrete population rows for the optimizer witness. -/
def samplePop : List (String × ℤ) := [("district-1", 1000), ("district-2", 2000)]

/-! ## Helper lemmas: workflow map updates and the reopen cascade -/

/-- Updating a key then reading it gives the new value. -/
theorem updFn_apply_self (w : Workflow) (d : WorkflowStep) (v : StepState) :
    updFn w d v d = v := by
  simp [updFn]

/-- Updating one key leaves every other key unchanged. -/
theorem updFn_apply_ne (w : Workflow) (d : WorkflowStep) (v : StepState)
    (x : WorkflowStep) (h : x ≠ d) : updFn w d v x = w x := by
  simp [updFn, h]

/-- Writing back the current value is the identity. -/
theorem updFn_eta (w : Workflow) (d : WorkflowStep) : updFn w d (w d) = w := by
  funext x
  by_cases h : x = d
  · subst h; simp [updFn]
  · simp [updFn, h]

/-- Clearing completion metadata is idempotent. -/
theorem clearToInProgress_idem (st : StepState) :
    clearToInProgress (clearToInProgress st) = clearToInProgress st := rfl

/-- A cleared state is in progress. -/
theorem clearToInProgress_status (st : StepState) :
    (clearToInProgress st).status = StepStatus.in_progress := rfl

/-- No step is a blocking prerequisite of itself in `PREREQUISITES`. -/
theorem no_self_blocking (s : WorkflowStep) : isBlockingDep s s = false := by
  cases s <;> decide

/-- Every step occurs in the fixed order list. -/
theorem mem_order (d : WorkflowStep) : d ∈ WORKFLOW_STEP_ORDER := by
  cases d <;> decide

/-- The fixed order list has no duplicates. -/
theorem order_nodup : WORKFLOW_STEP_ORDER.Nodup := by decide

/-- One cascade iteration touches no key besides its own. -/
theorem cascadeStep_apply_ne (s : WorkflowStep) (w : Workflow)
    (e d : WorkflowStep) (h : d ≠ e) : cascadeStep s w e d = w d := by
  unfold cascadeStep
  split_ifs <;> simp [updFn, h]

/-- Value of one cascade iteration at its own key. -/
theorem cascadeStep_apply_self (s : WorkflowStep) (w : Workflow)
    (e : WorkflowStep) :
    cascadeStep s w e e =
      if isBlockingDep s e = true ∧ (w e).status = StepStatus.completed
      then clearToInProgress (w e) else w e := by
  unfold cascadeStep
  by_cases h1 : isBlockingDep s e = true
  · by_cases h2 : (w e).status = StepStatus.completed
    · simp [h1, h2, updFn]
    · simp [h1, h2]
  · simp at h1
    simp [h1]

/-- Pointwise value of the cascade fold over a duplicate-free step list. -/
theorem foldl_cascade_apply (s : WorkflowStep) :
    ∀ (l : List WorkflowStep), l.Nodup → ∀ (w : Workflow) (d : WorkflowStep),
      (l.foldl (cascadeStep s) w) d =
        if d ∈ l ∧ isBlockingDep s d = true ∧
            (w d).status = StepStatus.completed
        then clearToInProgress (w d) else w d := by
  intro l
  induction l with
  | nil => intro _ w d; simp
  | cons e rest ih =>
    intro hnd w d
    obtain ⟨he, hrest⟩ := List.nodup_cons.mp hnd
    rw [List.foldl_cons, ih hrest (cascadeStep s w e) d]
    by_cases hde : d = e
    · subst hde
      have hdl : d ∉ rest := he
      rw [cascadeStep_apply_self]
      by_cases hc : isBlockingDep s d = true ∧
          (w d).status = StepStatus.completed
      · simp [hdl, hc]
      · simp [hdl, hc]
    · rw [cascadeStep_apply_ne s w e d hde]
      simp [hde, List.mem_cons]

/-- Pointwise value of `reopen_step`. -/
theorem reopen_step_apply (w : Workflow) (s d : WorkflowStep) :
    reopen_step w s d =
      if isBlockingDep s d = true ∧
          (updFn w s (clearToInProgress (w s)) d).status = StepStatus.completed
      then clearToInProgress (updFn w s (clearToInProgress (w s)) d)
      else updFn w s (clearToInProgress (w s)) d := by
  unfold reopen_step
  rw [foldl_cascade_apply s WORKFLOW_STEP_ORDER order_nodup _ d]
  simp [mem_order d]

/-- `reopen_step` resets its target unconditionally. -/
theorem reopen_step_self (w : Workflow) (s : WorkflowStep) :
    reopen_step w s s = clearToInProgress (w s) := by
  rw [reopen_step_apply, updFn_apply_self]
  simp [no_self_blocking s]

/-- `reopen_step` at a direct blocking dependent: reset iff completed. -/
theorem reopen_step_dep (w : Workflow) (s d : WorkflowStep)
    (hB : isBlockingDep s d = true) :
    reopen_step w s d =
      if (w d).status = StepStatus.completed then clearToInProgress (w d)
      else w d := by
  have hds : d ≠ s := by
    intro h
    subst h
    rw [no_self_blocking] at hB
    exact Bool.false_ne_true hB
  rw [reopen_step_apply, updFn_apply_ne _ _ _ _ hds]
  by_cases hc : (w d).status = StepStatus.completed
  · simp [hB, hc]
  · simp [hB, hc]

/-- `reopen_step` leaves every step that is neither the target nor a direct
blocking dependent untouched. -/
theorem reopen_step_other (w : Workflow) (s d : WorkflowStep) (hds : d ≠ s)
    (hB : isBlockingDep s d = false) : reopen_step w s d = w d := by
  rw [reopen_step_apply, updFn_apply_ne _ _ _ _ hds]
  simp [hB]

/-! ## Claim theorems -/

/-- C1: `complete_step` is a strict gate: it succeeds iff `validate_step`
returns zero errors; on success the step is completed at 100% with the
timestamp and actor recorded; on failure the error aggregates all validator
error strings; for a project with zero data sources, completing data
assembly fails naming "No data sources uploaded". -/
theorem complete_step_strict_gate (p : Project) (w : Workflow)
    (s : WorkflowStep) (u t : Nat) :
    ((∃ w', complete_step p w s u t = Except.ok w') ↔
        (validate_step p w s).1 = [])
    ∧ (∀ w', complete_step p w s u t = Except.ok w' →
        (w' s).status = StepStatus.completed
        ∧ (w' s).completion_percentage = 100
        ∧ (w' s).completed_at = some t
        ∧ (w' s).completed_by = some u)
    ∧ ((validate_step p w s).1 ≠ [] →
        complete_step p w s u t =
          Except.error ("Step cannot be completed: " ++
            String.intercalate ", " (validate_step p w s).1))
    ∧ (p.data_sources = [] →
        complete_step p w WorkflowStep.data_assembly u t =
          Except.error "Step cannot be completed: No data sources uploaded") := by
  refine ⟨?_, ?_, ?_, ?_⟩
  · by_cases h : (validate_step p w s).1 = []
    · simp [complete_step, h]
    · simp [complete_step, h]
  · intro w' hw
    by_cases h : (validate_step p w s).1 = []
    · simp only [complete_step, h, if_pos, Except.ok.injEq] at hw
      subst hw
      rw [updFn_apply_self]
      exact ⟨rfl, rfl, rfl, rfl⟩
    · simp [complete_step, h] at hw
  · intro h
    simp [complete_step, h]
  · intro h
    have hv : validate_step p w WorkflowStep.data_assembly =
        (["No data sources uploaded"], []) := by
      simp [validate_step, validate_data_assembly, h]
    simp [complete_step, hv]
    rfl

/-- Witness for C1 at a concrete empty project. -/
theorem complete_step_strict_gate_witness :
    complete_step emptyProject wfAllNotStarted WorkflowStep.data_assembly 1 2 =
      Except.error "Step cannot be completed: No data sources uploaded" :=
  (complete_step_strict_gate emptyProject wfAllNotStarted
      WorkflowStep.data_assembly 1 2).2.2.2 rfl

/-- C2: `reopen_step` cascades exactly one level: the target is reset to
in_progress with completion metadata cleared; every completed direct
BLOCKING dependent (and only those) is likewise reset; every other step is
untouched, so no transitive cascade occurs. -/
theorem reopen_step_one_level_cascade (w : Workflow) (s : WorkflowStep) :
    reopen_step w s s = clearToInProgress (w s)
    ∧ (∀ d, isBlockingDep s d = true →
        (w d).status = StepStatus.completed →
        reopen_step w s d = clearToInProgress (w d))
    ∧ (∀ d, isBlockingDep s d = true →
        (w d).status ≠ StepStatus.completed → reopen_step w s d = w d)
    ∧ (∀ d, d ≠ s → isBlockingDep s d = false → reopen_step w s d = w d) := by
  refine ⟨reopen_step_self w s, ?_, ?_, fun d hds hB =>
    reopen_step_other w s d hds hB⟩
  · intro d hB hc
    rw [reopen_step_dep w s d hB, if_pos hc]
  · intro d hB hc
    rw [reopen_step_dep w s d hB, if_neg hc]

/-- Witness for C2: reopening planning resets the completed data-assembly
dependent. -/
theorem reopen_step_one_level_cascade_witness :
    reopen_step wfDataAssemblyDone WorkflowStep.planning_preparedness
        WorkflowStep.data_assembly =
      clearToInProgress (wfDataAssemblyDone WorkflowStep.data_assembly) :=
  (reopen_step_one_level_cascade wfDataAssemblyDone
      WorkflowStep.planning_preparedness).2.1 WorkflowStep.data_assembly
    (by decide) (by decide)

/-- C8: `reopen_step` is idempotent: applying it twice equals applying it
once; on an already-in_progress step it only clears completion metadata;
and no step besides the target and its direct blocking dependents is ever
affected. -/
theorem reopen_step_idempotent (w : Workflow) (s : WorkflowStep) :
    reopen_step (reopen_step w s) s = reopen_step w s
    ∧ ((w s).status = StepStatus.in_progress →
        (reopen_step w s) s =
          { w s with completed_at := none, completed_by := none })
    ∧ (∀ d, d ≠ s → isBlockingDep s d = false → reopen_step w s d = w d) := by
  refine ⟨?_, ?_, fun d hds hB => reopen_step_other w s d hds hB⟩
  · funext d
    by_cases hds : d = s
    · subst hds
      rw [reopen_step_self, reopen_step_self, clearToInProgress_idem]
    · by_cases hB : isBlockingDep s d = true
      · rw [reopen_step_dep _ s d hB]
        by_cases hc : (w d).status = StepStatus.completed
        · have h1 : reopen_step w s d = clearToInProgress (w d) := by
            rw [reopen_step_dep w s d hB, if_pos hc]
          rw [h1]
          simp [clearToInProgress]
        · have h1 : reopen_step w s d = w d := by
            rw [reopen_step_dep w s d hB, if_neg hc]
          rw [h1, if_neg hc]
      · simp at hB
        rw [reopen_step_other _ s d hds hB, reopen_step_other w s d hds hB]
  · intro h
    rw [reopen_step_self]
    unfold clearToInProgress
    rw [← h]

/-- Witness for C8 at a concrete all-in-progress workflow. -/
theorem reopen_step_idempotent_witness :
    (reopen_step wfAllInProgress WorkflowStep.stratification)
        WorkflowStep.stratification =
      { wfAllInProgress WorkflowStep.stratification with
        completed_at := none
        completed_by := none } :=
  (reopen_step_idempotent wfAllInProgress WorkflowStep.stratification).2.1
    (by decide)

/-- C9: `reopen_step` has no precondition on the target's status: on a
not_started step it still (without error, being total) sets the step to
in_progress, clears completion metadata, and resets completed direct
blocking dependents. -/
theorem reopen_step_no_status_precondition (w : Workflow) (s : WorkflowStep)
    (_h : (w s).status = StepStatus.not_started) :
    (reopen_step w s) s = clearToInProgress (w s)
    ∧ ((reopen_step w s) s).status = StepStatus.in_progress
    ∧ (∀ d, isBlockingDep s d = true →
        (w d).status = StepStatus.completed →
        reopen_step w s d = clearToInProgress (w d)) := by
  refine ⟨reopen_step_self w s, ?_, ?_⟩
  · rw [reopen_step_self]
    rfl
  · intro d hB hc
    rw [reopen_step_dep w s d hB, if_pos hc]

/-- Witness for C9 at a freshly initialized workflow. -/
theorem reopen_step_no_status_precondition_witness :
    ((reopen_step wfAllNotStarted WorkflowStep.stratification)
        WorkflowStep.stratification).status = StepStatus.in_progress :=
  (reopen_step_no_status_precondition wfAllNotStarted
      WorkflowStep.stratification (by decide)).2.1

/-- C5: for contiguous threshold bands covering `[0, 100)` (very_low
`[0,a)`, low `[a,b)`, moderate `[b,c)`, high `[c,100)`) and any
non-negative metric value, `assign_risk_level` returns the first band in
the fixed order containing the value (defaulting to high above all bands),
and the returned level is monotonically non-decreasing in the value. -/
theorem assign_risk_level_cover_monotone (t : RiskLevel → Option Band)
    (a b c : ℚ) (_h0 : 0 ≤ a) (_hab : a ≤ b) (_hbc : b ≤ c) (_hc : c ≤ 100)
    (hvl : t RiskLevel.very_low = some { min_value := 0, max_value := a })
    (hlo : t RiskLevel.low = some { min_value := a, max_value := b })
    (hmo : t RiskLevel.moderate = some { min_value := b, max_value := c })
    (hhi : t RiskLevel.high = some { min_value := c, max_value := 100 }) :
    (∀ v : ℚ, 0 ≤ v →
        assign_risk_level v t =
          if v < a then RiskLevel.very_low
          else if v < b then RiskLevel.low
          else if v < c then RiskLevel.moderate
          else RiskLevel.high)
    ∧ (∀ v u : ℚ, 0 ≤ v → v ≤ u →
        (assign_risk_level v t).toNat ≤ (assign_risk_level u t).toNat) := by
  have key : ∀ v : ℚ, 0 ≤ v →
      assign_risk_level v t =
        if v < a then RiskLevel.very_low
        else if v < b then RiskLevel.low
        else if v < c then RiskLevel.moderate
        else RiskLevel.high := by
    intro v hv
    simp only [assign_risk_level, bandContains, hvl, hlo, hmo, hhi]
    by_cases h1 : v < a
    · simp [hv, h1]
    · have ha : a ≤ v := le_of_not_lt h1
      by_cases h2 : v < b
      · simp [hv, h1, h2, ha]
      · have hb : b ≤ v := le_of_not_lt h2
        by_cases h3 : v < c
        · simp [hv, h1, h2, h3, ha, hb]
        · have hcv : c ≤ v := le_of_not_lt h3
          by_cases h4 : v < 100
          · simp [hv, h1, h2, h3, h4, ha, hb, hcv]
          · simp [hv, h1, h2, h3, h4, ha, hb, hcv]
  refine ⟨key, ?_⟩
  intro v u hv hvu
  have hu : 0 ≤ u := le_trans hv hvu
  rw [key v hv, key u hu]
  split_ifs <;> first
    | decide
    | (exfalso; linarith)

/-- Witness for C5 on concrete bands 0/25/50/75/100. -/
theorem assign_risk_level_cover_monotone_witness :
    (assign_risk_level 30 sampleThresholds).toNat ≤
      (assign_risk_level 80 sampleThresholds).toNat :=
  (assign_risk_level_cover_monotone sampleThresholds 25 50 75
      (by norm_num) (by norm_num) (by norm_num) (by norm_num)
      rfl rfl rfl rfl).2 30 80 (by norm_num) (by norm_num)

/-- C10: the eligibility table maps very_low to `{CM}`, low to
`{CM, ITN, IPTp}`, and moderate and high both to
`{CM, ITN, IRS, IPTp, SMC, VACCINE}`; the result never depends on the
metric or unit-data arguments, contains CM at every level, and is
monotone (each level's set is included in the next level's set). -/
theorem eligible_interventions_table (m m' : StratificationMetric)
    (u u' : List (String × ℚ)) :
    determine_eligible_interventions RiskLevel.very_low m u = ["CM"]
    ∧ determine_eligible_interventions RiskLevel.low m u =
        ["CM", "ITN", "IPTp"]
    ∧ determine_eligible_interventions RiskLevel.moderate m u =
        ["CM", "ITN", "IRS", "IPTp", "SMC", "VACCINE"]
    ∧ determine_eligible_interventions RiskLevel.high m u =
        ["CM", "ITN", "IRS", "IPTp", "SMC", "VACCINE"]
    ∧ (∀ r, determine_eligible_interventions r m u =
        determine_eligible_interventions r m' u')
    ∧ (∀ r, "CM" ∈ determine_eligible_interventions r m u)
    ∧ determine_eligible_interventions RiskLevel.very_low m u ⊆
        determine_eligible_interventions RiskLevel.low m u
    ∧ determine_eligible_interventions RiskLevel.low m u ⊆
        determine_eligible_interventions RiskLevel.moderate m u
    ∧ determine_eligible_interventions RiskLevel.moderate m u ⊆
        determine_eligible_interventions RiskLevel.high m u := by
  refine ⟨rfl, rfl, rfl, rfl, ?_, ?_, ?_, ?_, ?_⟩
  · intro r
    cases r <;> rfl
  · intro r
    cases r <;> simp [determine_eligible_interventions]
  · intro x hx
    simp [determine_eligible_interventions] at hx ⊢
    tauto
  · intro x hx
    simp [determine_eligible_interventions] at hx ⊢
    tauto
  · intro x hx
    simp [determine_eligible_interventions] at hx ⊢
    tauto

/-- C3 counterexample: a scenario with a (truthy) total cost and a strictly
positive deaths-averted count, but zero cases averted, gets a null
cost-per-death-averted ratio — the outer gate of `run_forecast` requires
`cases_averted` to be truthy before any ratio is computed, so the ratios do
not depend only on their own averted counts. -/
theorem ce_ratio_death_blocked_by_zero_cases :
    truthyQ (some 1000) = true
    ∧ (ForecastData.mk (some 0) (some 5) (some 150)).deaths_averted.getD 0 = 5
    ∧ (0 : ℤ) < 5
    ∧ (cost_effectiveness_ratios (some 1000)
        (ForecastData.mk (some 0) (some 5) (some 150))).2.1 = none := by
  refine ⟨by simp [truthyQ], rfl, by decide, ?_⟩
  simp [cost_effectiveness_ratios, truthyZ]

/-- C3 amended: all three ratios are gated by the scenario's total cost and
the cases-averted count both being truthy; under that gate, each ratio is
non-null exactly when its own averted count is positive. -/
theorem ce_ratios_gated_by_cases_averted (tc : Option ℚ) (fd : ForecastData) :
    ((cost_effectiveness_ratios tc fd).1 ≠ none ↔
      (truthyQ tc && truthyZ fd.cases_averted) = true ∧
        0 < fd.cases_averted.getD 0)
    ∧ ((cost_effectiveness_ratios tc fd).2.1 ≠ none ↔
      (truthyQ tc && truthyZ fd.cases_averted) = true ∧
        0 < fd.deaths_averted.getD 0)
    ∧ ((cost_effectiveness_ratios tc fd).2.2 ≠ none ↔
      (truthyQ tc && truthyZ fd.cases_averted) = true ∧
        0 < fd.dalys_averted.getD 0) := by
  by_cases hg : (truthyQ tc && truthyZ fd.cases_averted) = true
  · unfold cost_effectiveness_ratios
    refine ⟨?_, ?_, ?_⟩
    · by_cases hx : 0 < fd.cases_averted.getD 0 <;> simp [hx, hg]
    · by_cases hx : 0 < fd.deaths_averted.getD 0 <;> simp [hx, hg]
    · by_cases hx : 0 < fd.dalys_averted.getD 0 <;> simp [hx, hg]
  · have hg' : (truthyQ tc && truthyZ fd.cases_averted) = false := by
      simpa using hg
    unfold cost_effectiveness_ratios
    simp [hg']

/-- C4 counterexample: a data table with one exact duplicate row in ten
scores 0.8 (≥ 0.7) on the duplicates check with issues_found = 1, yet the
recommendation loop of `run_all_checks` generates no recommendation for it
(it only tests the score, never the issue count). -/
theorem recommendation_missing_for_flagged_check :
    check_duplicates
        [["0"], ["1"], ["2"], ["3"], ["4"], ["5"], ["6"], ["7"], ["8"], ["0"]] =
      (4/5, 1, "1 duplicate rows found (10.0%)")
    ∧ ¬ ((4 : ℚ)/5 < 7/10)
    ∧ (0 : Nat) < 1
    ∧ report_recommendations
        [{ check_type := "duplicates", score := some (4/5), issues_found := 1 }] =
        [] := by
  refine ⟨?_, by norm_num, by decide, ?_⟩
  · have hd : ([["0"], ["1"], ["2"], ["3"], ["4"], ["5"], ["6"], ["7"],
        ["8"], ["0"]] : List (List String)).dedup.length = 9 := by decide
    simp only [check_duplicates, hd, List.length_cons, List.length_nil,
      Prod.mk.injEq]
    have hpct : ((10 - 9 : ℕ) : ℚ) / ((10 : ℕ) : ℚ) * 100 = 10 := by norm_num
    refine ⟨?_, ?_, ?_⟩
    · norm_num [roundHalfEven, max_def]
    · norm_num
    · norm_num [formatF1, roundHalfEven]
      decide
  · norm_num [report_recommendations]

/-- Cons unfolding of the recommendation loop. -/
theorem report_recommendations_cons (r : CheckRecord)
    (rest : List CheckRecord) :
    report_recommendations (r :: rest) =
      (match r.score with
       | some sc =>
           if sc < 7/10 then
             recMessage r.check_type sc :: report_recommendations rest
           else report_recommendations rest
       | none => report_recommendations rest) := rfl

/-- C4 amended: a recommendation is generated for a check exactly when its
score is non-null and below 0.7; the issue count has no influence (changing
every record's `issues_found` arbitrarily leaves the recommendations
unchanged). -/
theorem recommendations_score_only (checks : List CheckRecord) :
    report_recommendations checks =
      (checks.filter (fun r =>
        match r.score with
        | some sc => decide (sc < 7/10)
        | none => false)).map
        (fun r => recMessage r.check_type (r.score.getD 0))
    ∧ ∀ f : CheckRecord → Nat,
        report_recommendations
          (checks.map (fun r => { r with issues_found := f r })) =
          report_recommendations checks := by
  constructor
  · induction checks with
    | nil => rfl
    | cons r rest ih =>
      rw [report_recommendations_cons, List.filter_cons]
      cases hsc : r.score with
      | none => simpa [hsc] using ih
      | some sc =>
        by_cases hlt : sc < 7/10
        · simp [hsc, hlt, ih]
        · simp [hsc, hlt, ih]
  · intro f
    induction checks with
    | nil => rfl
    | cons r rest ih =>
      rw [List.map_cons, report_recommendations_cons,
        report_recommendations_cons]
      cases hsc : r.score with
      | none => simpa [hsc] using ih
      | some sc =>
        by_cases hlt : sc < 7/10
        · simp [hsc, hlt, ih]
        · simp [hsc, hlt, ih]

/-- Closed form of the diminishing-returns fold: the combined reduction is
one minus the product of the residual fractions. -/
theorem foldl_composeEff (l : List ℚ) (c : ℚ) :
    l.foldl composeEff c = 1 - (1 - c) * (l.map (fun e => 1 - e)).prod := by
  induction l generalizing c with
  | nil =>
    simp only [List.foldl_nil, List.map_nil, List.prod_nil, mul_one]
    ring
  | cons e rest ih =>
    rw [List.foldl_cons, ih, List.map_cons, List.prod_cons]
    simp only [composeEff]
    ring

/-- C6: the combined effectiveness of `_simple_forecast` is invariant under
any permutation of the intervention codes (for cases and deaths alike), is
capped at 0.95, and for the set {ITN, IRS} the combined case reduction is
0.725 = 29/40. -/
theorem combined_reduction_perm_invariant :
    (∀ codes codes' : List String, codes.Perm codes' →
        combined_case_reduction codes = combined_case_reduction codes'
        ∧ combined_death_reduction codes = combined_death_reduction codes')
    ∧ combined_case_reduction ["itn", "irs"] = 29/40
    ∧ (∀ codes : List String,
        combined_case_reduction codes ≤ 19/20
        ∧ combined_death_reduction codes ≤ 19/20) := by
  refine ⟨?_, ?_, fun codes => ⟨min_le_right _ _, min_le_right _ _⟩⟩
  · intro codes codes' h
    constructor
    · unfold combined_case_reduction
      rw [foldl_composeEff, foldl_composeEff,
        List.Perm.prod_eq ((h.map cases_reduction).map (fun e => 1 - e))]
    · unfold combined_death_reduction
      rw [foldl_composeEff, foldl_composeEff,
        List.Perm.prod_eq ((h.map deaths_reduction).map (fun e => 1 - e))]
  · unfold combined_case_reduction
    have h1 : cases_reduction "itn" = 1/2 := rfl
    have h2 : cases_reduction "irs" = 9/20 := rfl
    simp only [List.map_cons, List.map_nil, List.foldl_cons, List.foldl_nil,
      h1, h2, composeEff]
    rw [min_def]
    norm_num

/-- Witness for C6: composing ITN then IRS equals composing IRS then ITN. -/
theorem combined_reduction_perm_invariant_witness :
    combined_case_reduction ["itn", "irs"] =
      combined_case_reduction ["irs", "itn"] :=
  (combined_reduction_perm_invariant.1 ["itn", "irs"] ["irs", "itn"]
    (List.Perm.swap "irs" "itn" [])).1

/-- The greedy loop of `optimize_scenario` never lets the running cost
exceed the budget, whatever the candidate order. -/
theorem greedy_fold_le (budget : ℚ) :
    ∀ (ce : List CEItem) (acc : List (String × List String) × ℚ),
      acc.2 ≤ budget →
      (ce.foldl (fun acc item =>
        if acc.2 + item.cost ≤ budget then
          (addTo acc.1 item.unit_key item.intervention, acc.2 + item.cost)
        else acc) acc).2 ≤ budget := by
  intro ce
  induction ce with
  | nil => intro acc h; exact h
  | cons item rest ih =>
    intro acc h
    rw [List.foldl_cons]
    by_cases hc : acc.2 + item.cost ≤ budget
    · rw [if_pos hc]
      exact ih _ hc
    · rw [if_neg hc]
      exact ih _ h

/-- C7: `optimize_scenario` sorts the candidate list ascending by ICER
(effect ≤ 0 giving ICER = ⊤, which sorts last), then greedily selects while
the running cost stays within the budget, so for every budget ≥ 0 the
stored total cost after optimization is at most the budget. -/
theorem optimize_scenario_within_budget
    (interventions : List (String × List String))
    (pop_map : List (String × ℤ)) (budget : ℚ) (h : 0 ≤ budget) :
    (optimize_scenario interventions pop_map budget).2 ≤ budget
    ∧ List.Pairwise (fun x y : CEItem => x.icer ≤ y.icer)
        ((build_ce_data interventions pop_map).mergeSort
          (fun a b => decide (a.icer ≤ b.icer))) := by
  constructor
  · unfold optimize_scenario greedy_select
    exact greedy_fold_le budget _ ([], 0) h
  · have htrans : ∀ a b c : CEItem,
        decide (a.icer ≤ b.icer) = true → decide (b.icer ≤ c.icer) = true →
        decide (a.icer ≤ c.icer) = true := by
      intro a b c hab hbc
      simp only [decide_eq_true_eq] at hab hbc ⊢
      exact le_trans hab hbc
    have htotal : ∀ a b : CEItem,
        (decide (a.icer ≤ b.icer) || decide (b.icer ≤ a.icer)) = true := by
      intro a b
      simp only [Bool.or_eq_true, decide_eq_true_eq]
      exact le_total _ _
    have hs := List.sorted_mergeSort htrans htotal
      (build_ce_data interventions pop_map)
    exact hs.imp (fun hxy => of_decide_eq_true hxy)

/-- Witness for C7 on a concrete two-district scenario. -/
theorem optimize_scenario_within_budget_witness :
    (optimize_scenario sampleAssignment samplePop 10000).2 ≤ 10000 :=
  (optimize_scenario_within_budget sampleAssignment samplePop 10000
    (by norm_num)).1

/-- Witness for the amended C3 at a concrete gated input. -/
theorem ce_ratios_gated_by_cases_averted_witness :
    ((cost_effectiveness_ratios (some 100)
        (ForecastData.mk (some 10) (some 0) (some 0))).1 ≠ none ↔
      (truthyQ (some 100) &&
        truthyZ (ForecastData.mk (some 10) (some 0) (some 0)).cases_averted) =
          true ∧
        0 < (ForecastData.mk (some 10) (some 0) (some 0)).cases_averted.getD 0) :=
  (ce_ratios_gated_by_cases_averted (some 100)
    (ForecastData.mk (some 10) (some 0) (some 0))).1

/-- Witness for the amended C4 at a concrete check list. -/
theorem recommendations_score_only_witness :
    report_recommendations
        ([({ check_type := "duplicates"
             score := some (4/5)
             issues_found := 1 } : CheckRecord)].map
          (fun r => { r with issues_found := (fun _ => 0) r })) =
      report_recommendations
        [{ check_type := "duplicates", score := some (4/5), issues_found := 1 }] :=
  (recommendations_score_only
    [{ check_type := "duplicates", score := some (4/5), issues_found := 1 }]).2
    (fun _ => 0)

/-- Witness for C10 at concrete metric and unit data. -/
theorem eligible_interventions_table_witness :
    "CM" ∈ determine_eligible_interventions RiskLevel.high
        StratificationMetric.pfpr [] :=
  (eligible_interventions_table StratificationMetric.pfpr
    StratificationMetric.incidence [] []).2.2.2.2.2.1 RiskLevel.high
